import Mathlib

/-!
Verification development for `Lib/concurrent/futures/interpreter.py`
(the `InterpreterPoolExecutor` worker-context core).

The module is embedded shallowly:

* Python values that cross the isolation boundary are the inductive `Value`
  (the Python object `None` is `Value.none`).
* Python exceptions are `PyExc` (type name plus message); the structured
  exception snapshot `_interpreters.exec` returns for an uncaught exception
  is `ExcInfo`.
* The external `_interpreters` / `_interpqueues` primitives are modelled as
  explicit operations on a `World` record holding the live interpreters
  (with their reference counts), the live queues (with their contents) and
  each interpreter's injected `__main__` bindings.
* `pickle.dumps` / `pickle.loads` are modelled as the exact round trip on
  the encoded `(fn, args, kwargs)` triple: the claims under study quantify
  over *serializable* tasks, for which pickling is a faithful round trip.
* Stateful methods become functions `... → World → World × Except _ _`;
  a `.error` result models an exception propagating out of the method.
-/

namespace InterpPool

/-- A Python value shipped across the isolation boundary.  `Value.none`
models the Python object `None`. -/
inductive Value where
  | none
  | bool (b : Bool)
  | int (n : Int)
  | str (s : String)
deriving DecidableEq

/-- A Python exception object, reduced to its class name and message. -/
structure PyExc where
  typeName : String
  msg : String
deriving DecidableEq

/-- Keyword arguments. -/
abbrev KW := List (String × Value)

/-- A callable task function: it either returns a value or raises. -/
abbrev Func := List Value → KW → Except PyExc Value

/-- The `shared` mapping of top-level bindings. -/
abbrev SharedMap := List (String × Value)

/-- The pair `(res, exc)` written to the results queue (interpreter.py
lines 76, 81, 89): slot one is the Python object in the first tuple
position (`Value.none` for the Python `None`), slot two is the exception
or `None`. -/
abbrev Envelope := Value × Option PyExc

/-- The structured exception snapshot produced by `_interpreters.exec` for
an uncaught exception.  `type` is the exception class (by name; `Option`
because the field can be `None`), `msg` the message, `formatted` the
pre-formatted one-line text, `errdisplay` the full traceback display
(`Option.none` models the attribute access raising). -/
structure ExcInfo where
  type : Option String
  msg : Option String
  formatted : Option String
  errdisplay : Option String
deriving DecidableEq

/-- Python truthiness of an optional string: `None` and `""` are falsy. -/
def truthyS : Option String → Bool
  | Option.none => false
  | Option.some s => !s.isEmpty

/-- The message computed by `ExecutionFailed.__init__` (lines 14-21):
`msg = excinfo.formatted`; if falsy, `f'{type.__name__}: {msg}'` when both
`excinfo.type` and `excinfo.msg` are truthy, otherwise
`excinfo.type.__name__ or excinfo.msg`.  When `excinfo.type` is `None` the
attribute access `excinfo.type.__name__` raises (`Except.error ()`). -/
def efInitMsg (info : ExcInfo) : Except Unit (Option String) :=
  if truthyS info.formatted then Except.ok info.formatted
  else if info.type.isSome && truthyS info.msg then
    Except.ok (Option.some ((info.type.getD "") ++ ": " ++ (info.msg.getD "")))
  else
    match info.type with
    | Option.none => Except.error ()
    | Option.some tn => Except.ok (if !tn.isEmpty then Option.some tn else info.msg)

/-- The `ExecutionFailed` exception object: the message handed to
`super().__init__` plus the stored `excinfo` (lines 11-22). -/
structure ExecutionFailed where
  msg : Option String
  excinfo : ExcInfo
deriving DecidableEq

/-- Constructing `ExecutionFailed(excinfo)`; `Except.error ()` models the
constructor itself raising while composing the message. -/
def mkExecutionFailed (info : ExcInfo) : Except Unit ExecutionFailed :=
  match efInitMsg info with
  | Except.ok m => Except.ok { msg := m, excinfo := info }
  | Except.error () => Except.error ()

/-- `str` of the message slot of a `BaseException`: Python renders
`Exception(None)` as the string `"None"`. -/
def baseStr : Option String → String
  | Option.none => "None"
  | Option.some s => s

/-- Longest common prefix of two character lists. -/
def commonPrefixL : List Char → List Char → List Char
  | a :: as, b :: bs => if a = b then a :: commonPrefixL as bs else []
  | _, _ => []

/-- A line consisting solely of spaces and tabs (ignored by
`textwrap.dedent` when computing the margin). -/
def isWsLine (s : String) : Bool := s.all (fun c => c = ' ' || c = '\t')

/-- Leading space/tab run of a line. -/
def leadWS (s : String) : String := s.takeWhile (fun c => c = ' ' || c = '\t')

/-- Model of `textwrap.dedent`: remove the longest common leading
whitespace of all lines that contain non-whitespace. -/
def pyDedent (s : String) : String :=
  let lines := s.splitOn "\n"
  let margins := (lines.filter (fun l => !isWsLine l)).map leadWS
  let margin :=
    match margins with
    | [] => ""
    | m :: ms => ms.foldl (fun (acc x : String) => String.mk (commonPrefixL acc.toList x.toList)) m
  String.intercalate "\n"
    (lines.map (fun l => if margin.isPrefixOf l then l.drop margin.length else l))

/-- `ExecutionFailed.__str__` (lines 24-36): try `self.excinfo.errdisplay`;
if the access raises (`errdisplay = Option.none`), fall back to
`super().__str__()`; otherwise return the dedented multi-line display built
from the base message and the traceback text. -/
def efStr (ef : ExecutionFailed) : String :=
  match ef.excinfo.errdisplay with
  | Option.none => baseStr ef.msg
  | Option.some formatted =>
      pyDedent (String.trim
        ("\n" ++ baseStr ef.msg ++ "\n\nUncaught in the interpreter:\n\n"
          ++ formatted ++ "\n                "))

/-- The `ExcInfo` snapshot the runtime builds for an uncaught Python
exception: class name, message, one-line formatted text and full display. -/
def PyExc.toExcInfo (e : PyExc) : ExcInfo :=
  { type := Option.some e.typeName,
    msg := Option.some e.msg,
    formatted := Option.some (e.typeName ++ ": " ++ e.msg),
    errdisplay := Option.some
      ("Traceback (most recent call last):\n" ++ e.typeName ++ ": " ++ e.msg) }

/-- A task callable as submitted by the user: either a raw script string or
a picklable callable. -/
inductive TaskFn where
  | script (s : String)
  | func (f : Func)

/-- The pickled task blob: the decoded `(fn, args, kwargs)` triple
(pickling is modelled as the exact round trip on serializable tasks). -/
structure Blob where
  fn : Func
  args : List Value
  kwargs : KW

/-- `resolve_task` (lines 43-53): a string `fn` raises
`TypeError('scripts not supported')`; otherwise the task triple is pickled
into the blob. -/
def resolve_task (fn : TaskFn) (args : List Value) (kwargs : KW) :
    Except PyExc Blob :=
  match fn with
  | TaskFn.script _ => Except.error { typeName := "TypeError", msg := "scripts not supported" }
  | TaskFn.func f => Except.ok { fn := f, args := args, kwargs := kwargs }

/-- The initializer-resolution portion of `WorkerContext.prepare`
(lines 55-63): encode the initializer with `resolve_task`; only a
`ValueError` is caught, and inside the handler a string initializer with
non-empty `initargs` is converted to the distinguished
`ValueError('an initializer script does not take args, ...')`; any other
exception propagates unchanged. -/
def prepare (initializer : Option TaskFn) (initargs : List Value) :
    Except PyExc (Option Blob) :=
  match initializer with
  | Option.none => Except.ok Option.none
  | Option.some init =>
      match resolve_task init initargs [] with
      | Except.ok d => Except.ok (Option.some d)
      | Except.error exc =>
          if exc.typeName = "ValueError" then
            match init with
            | TaskFn.script _ =>
                if !initargs.isEmpty then
                  Except.error { typeName := "ValueError",
                                 msg := "an initializer script does not take args" }
                else Except.error exc
            | TaskFn.func _ => Except.error exc
          else Except.error exc

namespace alist

/-- Association-list lookup on `Nat` keys. -/
def get {α : Type} : List (Nat × α) → Nat → Option α
  | [], _ => Option.none
  | (k', v) :: t, k => if k' = k then Option.some v else get t k

/-- Association-list update of an existing key. -/
def set {α : Type} : List (Nat × α) → Nat → α → List (Nat × α)
  | [], _, _ => []
  | (k', v') :: t, k, v => if k' = k then (k', v) :: t else (k', v') :: set t k v

/-- Association-list removal. -/
def del {α : Type} (l : List (Nat × α)) (k : Nat) : List (Nat × α) :=
  l.filter (fun p => p.1 ≠ k)

/-- Insert-or-update. -/
def put {α : Type} (l : List (Nat × α)) (k : Nat) (v : α) : List (Nat × α) :=
  match get l k with
  | Option.none => l ++ [(k, v)]
  | Option.some _ => set l k v

theorem get_set {α : Type} (l : List (Nat × α)) (k : Nat) (v x : α)
    (h : get l k = Option.some x) : get (set l k v) k = Option.some v := by
  induction l with
  | nil => simp [get] at h
  | cons p t ih =>
      obtain ⟨k', v'⟩ := p
      by_cases hk : k' = k
      · simp [get, set, hk]
      · simp [get, set, hk] at h ⊢
        exact ih h

end alist

/-- The state of the external `_interpreters` / `_interpqueues`
primitives: fresh-id counters, the live interpreters with their reference
counts, the live queues with their contents, and each interpreter's
injected `__main__` bindings. -/
structure World where
  nextInterp : Nat
  interps : List (Nat × Nat)
  nextQueue : Nat
  queues : List (Nat × List Envelope)
  mains : List (Nat × SharedMap)
deriving DecidableEq

/-- `_interpreters.create(reqrefs=True)`: allocate a fresh interpreter
(reference count 1) and return its id. -/
def icreate (w : World) : World × Nat :=
  ({ w with nextInterp := w.nextInterp + 1,
            interps := w.interps ++ [(w.nextInterp, 1)] }, w.nextInterp)

/-- `_interpreters.incref`: raises `InterpreterNotFoundError`
(`Except.error ()`) when the interpreter is gone. -/
def iincref (w : World) (i : Nat) : Except Unit World :=
  match alist.get w.interps i with
  | Option.none => Except.error ()
  | Option.some rc => Except.ok { w with interps := alist.set w.interps i (rc + 1) }

/-- `_interpreters.decref`: decrement the reference count, destroying the
interpreter when it reaches zero; raises `InterpreterNotFoundError`
(`Except.error ()`) when the interpreter is already gone. -/
def idecref (w : World) (i : Nat) : Except Unit World :=
  match alist.get w.interps i with
  | Option.none => Except.error ()
  | Option.some rc =>
      Except.ok { w with interps :=
        if rc ≤ 1 then alist.del w.interps i else alist.set w.interps i (rc - 1) }

/-- `_interpqueues.create(maxsize)` with `maxsize = 0` (unbounded):
allocate a fresh empty queue and return its id. -/
def qcreate (w : World) : World × Nat :=
  ({ w with nextQueue := w.nextQueue + 1,
            queues := w.queues ++ [(w.nextQueue, [])] }, w.nextQueue)

/-- `_interpqueues.put(qid, item)`: appends to the queue; raises
`TypeError` when the id is the Python `None` (an uninitialized
`self.resultsid` interpolated into the dispatch script), and
`QueueNotFoundError` when the queue has been destroyed. -/
def qput (w : World) (rid : Option Nat) (env : Envelope) : Except PyExc World :=
  match rid with
  | Option.none => Except.error { typeName := "TypeError", msg := "queue id must be an int" }
  | Option.some q =>
      match alist.get w.queues q with
      | Option.none => Except.error { typeName := "QueueNotFoundError", msg := "queue not found" }
      | Option.some items =>
          Except.ok { w with queues := alist.set w.queues q (items ++ [env]) }

/-- The distinct failure conditions of `_interpqueues.get`: a bad handle
(`TypeError`), the *channel-not-found* condition (`QueueNotFoundError`) and
the *transient-empty* condition (`QueueEmpty`, a `QueueError`). -/
inductive GetErr where
  | typeErr
  | notFound
  | empty
deriving DecidableEq

/-- `_interpqueues.get(qid)`: pops the first item and returns it paired
with the unbound-op marker, which is `None` on every successful retrieval
in this design. -/
def qget (w : World) (rid : Option Nat) :
    Except GetErr (World × (Envelope × Option Unit)) :=
  match rid with
  | Option.none => Except.error GetErr.typeErr
  | Option.some q =>
      match alist.get w.queues q with
      | Option.none => Except.error GetErr.notFound
      | Option.some [] => Except.error GetErr.empty
      | Option.some (e :: rest) =>
          Except.ok ({ w with queues := alist.set w.queues q rest }, (e, Option.none))

/-- `_interpqueues.destroy(qid)`: raises `QueueNotFoundError`
(`Except.error ()`) when the queue is already gone. -/
def qdestroy (w : World) (q : Nat) : Except Unit World :=
  match alist.get w.queues q with
  | Option.none => Except.error ()
  | Option.some _ => Except.ok { w with queues := alist.del w.queues q }

/-- String-keyed lookup for `__main__` bindings. -/
def lookupStr : List (String × Value) → String → Option Value
  | [], _ => Option.none
  | (k', v) :: t, k => if k' = k then Option.some v else lookupStr t k

/-- Binding update: new bindings overwrite old ones of the same name. -/
def mergeBindings (old new_ : SharedMap) : SharedMap :=
  old.filter (fun p => (lookupStr new_ p.1).isNone) ++ new_

/-- `_interpreters.set___main___attrs(interpid, shared, restrict=True)`:
inject the mapping into the interpreter's top-level namespace. -/
def set_main_attrs (w : World) (i : Nat) (m : SharedMap) : Except PyExc World :=
  match alist.get w.interps i with
  | Option.none => Except.error { typeName := "InterpreterNotFoundError", msg := "interpreter not found" }
  | Option.some _ =>
      Except.ok { w with mains := alist.put w.mains i (mergeBindings ((alist.get w.mains i).getD []) m) }

/-- The encoding step of task submission as the Pool performs it:
`resolve_task` applied to the submitted task, threaded through the world
state of the external primitives.  `resolve_task` (lines 43-53) performs
no interpreter or queue operation, so the world is returned unchanged. -/
def encodeTask (fn : TaskFn) (args : List Value) (kwargs : KW) (w : World) :
    World × Except PyExc Blob :=
  (w, resolve_task fn args kwargs)

/-- `WorkerContext._call` (lines 83-89), with the two `_capture_exc`
context managers (lines 68-77) inlined: run `func(*args, **kwargs)`; if it
raises, put `(None, exc)` on the results queue and re-raise; on success put
`(res, None)`, and if that put itself raises, capture and put the put's
exception, then re-raise.  A failing put inside the handler propagates its
own exception.  (`args or ()` / `kwargs or {}` agree with passing the
possibly-empty sequences directly.) -/
def call (f : Func) (args : List Value) (kwargs : KW) (rid : Option Nat)
    (w : World) : World × Except PyExc Unit :=
  match f args kwargs with
  | Except.error exc =>
      match qput w rid (Value.none, Option.some exc) with
      | Except.ok w' => (w', Except.error exc)
      | Except.error e' => (w, Except.error e')
  | Except.ok res =>
      match qput w rid (res, Option.none) with
      | Except.ok w' => (w', Except.ok ())
      | Except.error e' =>
          match qput w rid (Value.none, Option.some e') with
          | Except.ok w'' => (w'', Except.error e')
          | Except.error e'' => (w, Except.error e'')

/-- `WorkerContext._call_pickled` (lines 91-95): unpickle the blob (the
round trip is exact for the serializable tasks modelled here, so the
`_capture_exc` around `pickle.loads` has nothing to capture) and dispatch
to `_call`. -/
def call_pickled (b : Blob) (rid : Option Nat) (w : World) :
    World × Except PyExc Unit :=
  call b.fn b.args b.kwargs rid w

/-- `WorkerContext._send_script_result` (lines 79-81): put `(None, None)`
on the results queue. -/
def send_script_result (rid : Option Nat) (w : World) :
    World × Except PyExc Unit :=
  match qput w rid (Value.none, Option.none) with
  | Except.ok w' => (w', Except.ok ())
  | Except.error e => (w, Except.error e)

/-- The two scripts this module ever executes in the worker interpreter:
the bootstrap import (line 122) and the per-task dispatch script
(line 152, carrying the blob and `self.resultsid`). -/
inductive Script where
  | bootstrap
  | callPickled (data : Blob) (rid : Option Nat)

/-- `_interpreters.exec(interpid, script, restrict=True)`: raises
`InterpreterNotFoundError` when the interpreter is gone; otherwise returns
the `ExcInfo` snapshot of the script's uncaught exception, or `None`.  The
bootstrap import's failure modes are external host conditions, injected
through `bootRes`; the dispatch script runs `_call_pickled`. -/
def interpExec (w : World) (iid : Nat) (s : Script) (bootRes : Option ExcInfo) :
    World × Except PyExc (Option ExcInfo) :=
  match alist.get w.interps iid with
  | Option.none => (w, Except.error { typeName := "InterpreterNotFoundError", msg := "interpreter not found" })
  | Option.some _ =>
      match s with
      | Script.bootstrap => (w, Except.ok bootRes)
      | Script.callPickled b rid =>
          match call_pickled b rid w with
          | (w', Except.ok ()) => (w', Except.ok Option.none)
          | (w', Except.error exc) => (w', Except.ok (Option.some exc.toExcInfo))

/-- The `WorkerContext` instance state (lines 97-101): the encoded
initializer blob, the (snapshot of the) shared mapping, and the two
handles. -/
structure Ctx where
  initdata : Option Blob
  shared : Option SharedMap
  interpid : Option Nat
  resultsid : Option Nat

/-- Python truthiness of the `shared` argument: `None` and the empty
mapping are falsy. -/
def sharedTruthy : Option SharedMap → Bool
  | Option.none => false
  | Option.some m => !m.isEmpty

/-- `WorkerContext.__init__` (lines 97-101):
`self.shared = dict(shared) if shared else None` — a falsy `shared` is
stored as `None`; otherwise a snapshot copy of its contents is stored
(modelled by capturing the mapping's value).  Both handles start empty. -/
def mkCtx (initdata : Option Blob) (shared : Option SharedMap) : Ctx :=
  { initdata := initdata,
    shared := if sharedTruthy shared then Option.some (shared.getD []) else Option.none,
    interpid := Option.none,
    resultsid := Option.none }

/-- An exception propagating out of a `WorkerContext` method on the pool
thread: a plain Python exception, an `ExecutionFailed`, a failed `assert`,
or the reconstructed remote exception raised with
`raise exc from exc_wrapper` (line 180, `remote` carries the cause).
`fuelOut` is the model's artifact for exhausting the retrieval loop's
fuel. -/
inductive Raised where
  | pyExc (e : PyExc)
  | executionFailed (ef : ExecutionFailed)
  | assertionError
  | remote (exc : PyExc) (cause : ExecutionFailed)
  | fuelOut
deriving DecidableEq

/-- `WorkerContext._exec` (lines 107-111): assert the interpreter handle
is set, execute the script, and raise `ExecutionFailed(excinfo)` when the
execution reported an uncaught exception (the constructor itself raising
is propagated as the `AttributeError` it would be). -/
def ctx_exec (c : Ctx) (s : Script) (bootRes : Option ExcInfo) (w : World) :
    World × Except Raised Unit :=
  match c.interpid with
  | Option.none => (w, Except.error Raised.assertionError)
  | Option.some iid =>
      match interpExec w iid s bootRes with
      | (w', Except.error e) => (w', Except.error (Raised.pyExc e))
      | (w', Except.ok Option.none) => (w', Except.ok ())
      | (w', Except.ok (Option.some info)) =>
          match mkExecutionFailed info with
          | Except.ok ef => (w', Except.error (Raised.executionFailed ef))
          | Except.error () =>
              (w', Except.error (Raised.pyExc
                { typeName := "AttributeError",
                  msg := "NoneType object has no attribute __name__" }))

/-- `WorkerContext.finalize` (lines 134-148): clear both stored handles,
then destroy the queue ignoring `QueueNotFoundError`, then decref the
interpreter ignoring `InterpreterNotFoundError`.  Total: the only failures
its callees can raise are exactly the ones it catches, so `finalize` never
raises. -/
def finalize (c : Ctx) (w : World) : Ctx × World :=
  let interpid := c.interpid
  let resultsid := c.resultsid
  let c' : Ctx := { c with interpid := Option.none, resultsid := Option.none }
  let w1 :=
    match resultsid with
    | Option.none => w
    | Option.some q =>
        match qdestroy w q with
        | Except.ok w' => w'
        | Except.error () => w
  let w2 :=
    match interpid with
    | Option.none => w1
    | Option.some i =>
        match idecref w1 i with
        | Except.ok w' => w'
        | Except.error () => w1
  (c', w2)

/-- The tail of `WorkerContext.run` after the envelope is obtained
(lines 175-181): `assert unboundop is None`; if `exc` is populated,
`assert res is None`, `assert exc_wrapper is not None`, and
`raise exc from exc_wrapper`; otherwise return `res`. -/
def consumeEnvelope (obj : Envelope × Option Unit)
    (wrapper : Option ExecutionFailed) : Except Raised Value :=
  match obj with
  | ((res, exc), unboundop) =>
      if unboundop.isSome then Except.error Raised.assertionError
      else
        match exc with
        | Option.some e =>
            if res = Value.none then
              match wrapper with
              | Option.some ef => Except.error (Raised.remote e ef)
              | Option.none => Except.error Raised.assertionError
            else Except.error Raised.assertionError
        | Option.none => Except.ok res

/-- The retrieval loop of `WorkerContext.run` (lines 162-174) on the
deterministic queue state: `QueueNotFoundError` is re-raised immediately;
the transient-empty `QueueError` retries the `get`; a bad handle raises
`TypeError`.  The loop is fuelled because an empty queue in an otherwise
unchanging state retries forever. -/
def getLoop (c : Ctx) : Nat → World → World × Except Raised (Envelope × Option Unit)
  | 0, w => (w, Except.error Raised.fuelOut)
  | fuel + 1, w =>
      match qget w c.resultsid with
      | Except.ok (w', obj) => (w', Except.ok obj)
      | Except.error GetErr.notFound =>
          (w, Except.error (Raised.pyExc { typeName := "QueueNotFoundError", msg := "queue not found" }))
      | Except.error GetErr.typeErr =>
          (w, Except.error (Raised.pyExc { typeName := "TypeError", msg := "queue id must be an int" }))
      | Except.error GetErr.empty => getLoop c fuel w

/-- The part of `WorkerContext.run` after the dispatch script has been
executed: retrieve one envelope, then consume it with the saved
`exc_wrapper`. -/
def runTail (c : Ctx) (wrapper : Option ExecutionFailed) (fuel : Nat)
    (w : World) : World × Except Raised Value :=
  match getLoop c fuel w with
  | (w2, Except.error e) => (w2, Except.error e)
  | (w2, Except.ok obj) => (w2, consumeEnvelope obj wrapper)

/-- `WorkerContext.run` (lines 150-181): execute the dispatch script; an
`ExecutionFailed` from `_exec` is caught and saved as `exc_wrapper`
(any other exception propagates); then retrieve exactly one envelope and
return its value or raise its exception. -/
def run (c : Ctx) (task : Blob) (fuel : Nat) (w : World) :
    World × Except Raised Value :=
  match ctx_exec c (Script.callPickled task c.resultsid) Option.none w with
  | (w1, Except.error (Raised.executionFailed ef)) => runTail c (Option.some ef) fuel w1
  | (w1, Except.error e) => (w1, Except.error e)
  | (w1, Except.ok ()) => runTail c Option.none fuel w1

/-- Externally caused failures injected into the steps of
`WorkerContext.initialize` whose outcome the model cannot derive (the
incref call, the queue creation, the bootstrap import and the shared-state
injection are calls into the external runtime). -/
structure InitOracle where
  increfErr : Option PyExc
  queueCreateErr : Option PyExc
  bootErr : Option ExcInfo
  setAttrsErr : Option PyExc

/-- The oracle injecting no external failure. -/
def noFail : InitOracle :=
  { increfErr := Option.none, queueCreateErr := Option.none,
    bootErr := Option.none, setAttrsErr := Option.none }

/-- The shared-state injection step of `initialize` (lines 124-126):
`if self.shared: set___main___attrs(...)`. -/
def initShared (c : Ctx) (iid : Nat) (o : InitOracle) (w : World) :
    World × Option Raised :=
  if sharedTruthy c.shared then
    match o.setAttrsErr with
    | Option.some e => (w, Option.some (Raised.pyExc e))
    | Option.none =>
        match set_main_attrs w iid (c.shared.getD []) with
        | Except.error e => (w, Option.some (Raised.pyExc e))
        | Except.ok w' => (w', Option.none)
  else (w, Option.none)

/-- The initializer-task step of `initialize` (lines 128-129):
`if self.initdata: self.run(self.initdata)` — the result is discarded,
failure propagates. -/
def initTask (c : Ctx) (fuel : Nat) (w : World) : World × Option Raised :=
  match c.initdata with
  | Option.none => (w, Option.none)
  | Option.some b =>
      match run c b fuel w with
      | (w', Except.ok _) => (w', Option.none)
      | (w', Except.error e) => (w', Option.some e)

/-- The body of the `try` block of `initialize` (lines 116-129): incref,
queue creation, bootstrap import, shared-state injection, initializer
task; the first failure aborts the sequence. -/
def initSteps (c : Ctx) (iid : Nat) (o : InitOracle) (fuel : Nat) (w : World) :
    Ctx × World × Option Raised :=
  match o.increfErr with
  | Option.some e => (c, w, Option.some (Raised.pyExc e))
  | Option.none =>
      match iincref w iid with
      | Except.error () =>
          (c, w, Option.some (Raised.pyExc
            { typeName := "InterpreterNotFoundError", msg := "interpreter not found" }))
      | Except.ok w1 =>
          match o.queueCreateErr with
          | Option.some e => (c, w1, Option.some (Raised.pyExc e))
          | Option.none =>
              match qcreate w1 with
              | (w2, qid) =>
                  let c1 := { c with resultsid := Option.some qid }
                  match ctx_exec c1 Script.bootstrap o.bootErr w2 with
                  | (w3, Except.error e) => (c1, w3, Option.some e)
                  | (w3, Except.ok ()) =>
                      match initShared c1 iid o w3 with
                      | (w4, Option.some e) => (c1, w4, Option.some e)
                      | (w4, Option.none) =>
                          match initTask c1 fuel w4 with
                          | (w5, Option.some e) => (c1, w5, Option.some e)
                          | (w5, Option.none) => (c1, w5, Option.none)

/-- `WorkerContext.initialize` (lines 113-132): assert the interpreter
handle is empty (a failing assert propagates without cleanup, line 114),
create the interpreter and store its handle, then run the remaining steps
inside the `try`; on any failure, invoke `finalize` and re-raise the
original exception. -/
def ctxInit (c : Ctx) (o : InitOracle) (fuel : Nat) (w : World) :
    Ctx × World × Option Raised :=
  match c.interpid with
  | Option.some _ => (c, w, Option.some Raised.assertionError)
  | Option.none =>
      match icreate w with
      | (w0, iid) =>
          let c0 := { c with interpid := Option.some iid }
          match initSteps c0 iid o fuel w0 with
          | (c1, w1, Option.none) => (c1, w1, Option.none)
          | (c1, w1, Option.some e) =>
              match finalize c1 w1 with
              | (c2, w2) => (c2, w2, Option.some e)

/-- One observed outcome of a `_interpqueues.get` attempt in the retrieval
loop of `run`, as yielded by the external channel primitive. -/
inductive GetOutcome where
  | ok (obj : Envelope × Option Unit)
  | queueNotFound
  | queueError
  | moduleNotFound
deriving DecidableEq

/-- The outcomes the loop retries on: any `QueueError` other than
`QueueNotFoundError`, and the `ModuleNotFoundError` standing in for a
missing `QueueEmpty` (lines 167-172). -/
def transient : GetOutcome → Bool
  | GetOutcome.queueError => true
  | GetOutcome.moduleNotFound => true
  | _ => false

/-- The retrieval loop of `run` (lines 162-174) over the sequence of
outcomes the external queue primitive yields: `QueueNotFoundError` is
re-raised (`Except.error ()`), a transient outcome continues the loop, a
successful `get` breaks with the object; `Option.none` means the loop is
still running when the observed outcomes are exhausted. -/
def retrieveLoop : List GetOutcome → Option (Except Unit (Envelope × Option Unit))
  | [] => Option.none
  | GetOutcome.ok obj :: _ => Option.some (Except.ok obj)
  | GetOutcome.queueNotFound :: _ => Option.some (Except.error ())
  | GetOutcome.queueError :: t => retrieveLoop t
  | GetOutcome.moduleNotFound :: t => retrieveLoop t

/-- The `value` field of an envelope is populated iff the first slot is
not the Python `None`. -/
def valuePopulated (env : Envelope) : Bool :=
  match env.1 with
  | Value.none => false
  | _ => true

/-- The `error` field of an envelope is populated iff the second slot is
not the Python `None`. -/
def errorPopulated (env : Envelope) : Bool := env.2.isSome

/-- Exactly one of the two envelope fields is populated. -/
def exactlyOne (env : Envelope) : Bool :=
  valuePopulated env != errorPopulated env

/-- Whether `pat` occurs as a contiguous run in the character list. -/
def containsAux (pat : List Char) : List Char → Bool
  | [] => pat.isEmpty
  | c :: t => pat.isPrefixOf (c :: t) || containsAux pat t

/-- Whether `pat` occurs as a substring of `s`. -/
def strContains (s pat : String) : Bool := containsAux pat.toList s.toList

deriving instance DecidableEq for Except

/-! ## Claims -/

/-- C1: for every serializable callable `fn` with serializable `args` and
`kwargs`, encoding the task with `resolve_task` succeeds, and passing the
resulting blob to `run` on an initialized context (live interpreter
handle, live empty results queue) returns exactly the value
`fn(*args, **kwargs)` computed on the isolated side. -/
theorem c1_run_returns_task_value (f : Func) (args : List Value) (kwargs : KW)
    (v : Value) (c : Ctx) (w : World) (i q rc n : Nat)
    (hi : c.interpid = Option.some i) (hq : c.resultsid = Option.some q)
    (hwi : alist.get w.interps i = Option.some rc)
    (hwq : alist.get w.queues q = Option.some [])
    (hf : f args kwargs = Except.ok v) :
    resolve_task (TaskFn.func f) args kwargs = Except.ok ⟨f, args, kwargs⟩ ∧
    (run c ⟨f, args, kwargs⟩ (n + 1) w).2 = Except.ok v := by
  refine ⟨rfl, ?_⟩
  have hset : alist.get (alist.set w.queues q [(v, (Option.none : Option PyExc))]) q
      = Option.some [(v, Option.none)] := alist.get_set _ _ _ _ hwq
  simp [run, ctx_exec, interpExec, call_pickled, call, qput, runTail, getLoop, qget,
        consumeEnvelope, hi, hq, hwi, hwq, hf, hset]

theorem c1_run_returns_task_value_witness :
    resolve_task (TaskFn.func (fun _ _ => Except.ok (Value.int 7))) [] []
        = Except.ok ⟨fun _ _ => Except.ok (Value.int 7), [], []⟩ ∧
    (run ⟨Option.none, Option.none, Option.some 0, Option.some 0⟩
        ⟨fun _ _ => Except.ok (Value.int 7), [], []⟩ 1
        ⟨1, [(0, 2)], 1, [(0, [])], []⟩).2 = Except.ok (Value.int 7) :=
  c1_run_returns_task_value (fun _ _ => Except.ok (Value.int 7)) [] [] (Value.int 7)
    ⟨Option.none, Option.none, Option.some 0, Option.some 0⟩
    ⟨1, [(0, 2)], 1, [(0, [])], []⟩ 0 0 2 0 rfl rfl (by decide) (by decide) rfl

/-- C2: whenever any step inside `initialize` raises (runtime creation
aside — the oracle can fail the incref, the channel creation, the
bootstrap execution or the shared-state injection, and the initializer
task can itself raise), `finalize` is invoked before the original failure
is re-raised, so both handles of the returned context are empty; moreover
the re-raised failure is the original one (shown for an injected incref
failure). -/
theorem c2_failed_init_finalizes_and_reraises :
    (∀ (c : Ctx) (o : InitOracle) (fuel : Nat) (w : World) (e : Raised),
      c.interpid = Option.none →
      (ctxInit c o fuel w).2.2 = Option.some e →
      (ctxInit c o fuel w).1.interpid = Option.none ∧
      (ctxInit c o fuel w).1.resultsid = Option.none) ∧
    (∀ (c : Ctx) (w : World) (ex : PyExc),
      c.interpid = Option.none →
      (ctxInit c ⟨Option.some ex, Option.none, Option.none, Option.none⟩ 1 w).2.2
        = Option.some (Raised.pyExc ex)) := by
  constructor
  · intro c o fuel w e hc hout
    unfold ctxInit at hout ⊢
    rw [hc] at hout ⊢
    simp only [icreate] at hout ⊢
    generalize initSteps _ _ o fuel _ = s at hout ⊢
    obtain ⟨c1, w1, oe⟩ := s
    cases oe with
    | none => simp at hout
    | some e' => exact ⟨rfl, rfl⟩
  · intro c w ex hc
    unfold ctxInit
    rw [hc]
    rfl

theorem c2_failed_init_finalizes_and_reraises_witness :
    (ctxInit ⟨Option.none, Option.none, Option.none, Option.none⟩
        ⟨Option.some ⟨"RuntimeError", "incref failed"⟩, Option.none, Option.none, Option.none⟩
        1 ⟨0, [], 0, [], []⟩).2.2
      = Option.some (Raised.pyExc ⟨"RuntimeError", "incref failed"⟩) ∧
    (ctxInit ⟨Option.none, Option.none, Option.none, Option.none⟩
        ⟨Option.some ⟨"RuntimeError", "incref failed"⟩, Option.none, Option.none, Option.none⟩
        1 ⟨0, [], 0, [], []⟩).1.interpid = Option.none ∧
    (ctxInit ⟨Option.none, Option.none, Option.none, Option.none⟩
        ⟨Option.some ⟨"RuntimeError", "incref failed"⟩, Option.none, Option.none, Option.none⟩
        1 ⟨0, [], 0, [], []⟩).1.resultsid = Option.none := by
  have h2 := c2_failed_init_finalizes_and_reraises.2
    ⟨Option.none, Option.none, Option.none, Option.none⟩ ⟨0, [], 0, [], []⟩
    ⟨"RuntimeError", "incref failed"⟩ rfl
  have h1 := c2_failed_init_finalizes_and_reraises.1
    ⟨Option.none, Option.none, Option.none, Option.none⟩
    ⟨Option.some ⟨"RuntimeError", "incref failed"⟩, Option.none, Option.none, Option.none⟩
    1 ⟨0, [], 0, [], []⟩ (Raised.pyExc ⟨"RuntimeError", "incref failed"⟩) rfl h2
  exact ⟨h2, h1.1, h1.2⟩

/-- C3: when the task's callable raises, the retrieved envelope has its
error field populated and `run` raises that reconstructed remote
exception chained (`raise exc from exc_wrapper`) from the `ExecutionFailed`
wrapper; when the envelope's error field is empty, `run` returns the
value slot.  Concretely, a task raising `ValueError("boom")` surfaces as
that remote exception chained from an `ExecutionFailed` whose message
contains both `"ValueError"` and `"boom"`. -/
theorem c3_error_envelope_raises_chained :
    (∀ (f : Func) (args : List Value) (kwargs : KW) (e : PyExc)
        (ef : ExecutionFailed) (c : Ctx) (w : World) (i q rc n : Nat),
      c.interpid = Option.some i → c.resultsid = Option.some q →
      alist.get w.interps i = Option.some rc →
      alist.get w.queues q = Option.some [] →
      f args kwargs = Except.error e →
      mkExecutionFailed e.toExcInfo = Except.ok ef →
      (run c ⟨f, args, kwargs⟩ (n + 1) w).2 = Except.error (Raised.remote e ef)) ∧
    (∀ (res : Value) (wrapper : Option ExecutionFailed),
      consumeEnvelope ((res, Option.none), Option.none) wrapper = Except.ok res) ∧
    ((run ⟨Option.none, Option.none, Option.some 0, Option.some 0⟩
        ⟨fun _ _ => Except.error ⟨"ValueError", "boom"⟩, [], []⟩ 1
        ⟨1, [(0, 2)], 1, [(0, [])], []⟩).2
      = Except.error (Raised.remote ⟨"ValueError", "boom"⟩
          ⟨Option.some "ValueError: boom", PyExc.toExcInfo ⟨"ValueError", "boom"⟩⟩) ∧
     strContains (baseStr (Option.some "ValueError: boom")) "ValueError" = true ∧
     strContains (baseStr (Option.some "ValueError: boom")) "boom" = true) := by
  refine ⟨?_, fun res wrapper => rfl, by decide, by decide, by decide⟩
  intro f args kwargs e ef c w i q rc n hi hq hwi hwq hf hef
  have hset : alist.get (alist.set w.queues q [(Value.none, Option.some e)]) q
      = Option.some [(Value.none, Option.some e)] := alist.get_set _ _ _ _ hwq
  simp [run, ctx_exec, interpExec, call_pickled, call, qput, runTail, getLoop, qget,
        consumeEnvelope, hi, hq, hwi, hwq, hf, hef, hset]

theorem c3_error_envelope_raises_chained_witness :
    (run ⟨Option.none, Option.none, Option.some 0, Option.some 0⟩
        ⟨fun _ _ => Except.error ⟨"TypeError", "bad"⟩, [], []⟩ 1
        ⟨1, [(0, 2)], 1, [(0, [])], []⟩).2
      = Except.error (Raised.remote ⟨"TypeError", "bad"⟩
          ⟨Option.some "TypeError: bad", PyExc.toExcInfo ⟨"TypeError", "bad"⟩⟩) :=
  c3_error_envelope_raises_chained.1 (fun _ _ => Except.error ⟨"TypeError", "bad"⟩)
    [] [] ⟨"TypeError", "bad"⟩
    ⟨Option.some "TypeError: bad", PyExc.toExcInfo ⟨"TypeError", "bad"⟩⟩
    ⟨Option.none, Option.none, Option.some 0, Option.some 0⟩
    ⟨1, [(0, 2)], 1, [(0, [])], []⟩ 0 0 2 0 rfl rfl (by decide) (by decide) rfl (by decide)

/-- C4 counterexample: a task whose callable returns `None` makes `_call`
write the envelope `(None, None)`, in which *neither* field is populated —
and `_send_script_result` always writes `(None, None)` — so "exactly one
of the two fields is populated, never neither" fails on the code's
envelope encoding. -/
theorem c4_counterexample_none_result_envelope :
    (call (fun _ _ => Except.ok Value.none) [] [] (Option.some 0)
        ⟨0, [], 1, [(0, [])], []⟩).1.queues
      = [(0, [(Value.none, (Option.none : Option PyExc))])] ∧
    exactlyOne (Value.none, (Option.none : Option PyExc)) = false ∧
    (send_script_result (Option.some 0) ⟨0, [], 1, [(0, [])], []⟩).1.queues
      = [(0, [(Value.none, (Option.none : Option PyExc))])] := by
  refine ⟨by decide, by decide, by decide⟩

/-- C4 (amended): every envelope written to the context's channel by
`_call`, `_capture_exc` or `_send_script_result` has *at most* one of its
two fields populated — never both.  An error write always carries `None`
in the value slot, and a successful call writes `(res, None)`; but a
callable returning `None` (and `_send_script_result`) writes
`(None, None)`, in which neither field is populated. -/
theorem c4_amended_never_both_populated (f : Func) (args : List Value)
    (kwargs : KW) (q : Nat) (w : World) (items : List Envelope)
    (hw : alist.get w.queues q = Option.some items) :
    (∃ written : List Envelope,
      (call f args kwargs (Option.some q) w).1.queues
          = alist.set w.queues q (items ++ written) ∧
      (∀ env ∈ written, (valuePopulated env && errorPopulated env) = false) ∧
      (∀ e, f args kwargs = Except.error e → written = [(Value.none, Option.some e)]) ∧
      (∀ v, f args kwargs = Except.ok v → written = [(v, Option.none)])) ∧
    (send_script_result (Option.some q) w).1.queues
        = alist.set w.queues q (items ++ [(Value.none, Option.none)]) ∧
    (valuePopulated (Value.none, Option.none)
        && errorPopulated (Value.none, Option.none)) = false := by
  refine ⟨?_, ?_, rfl⟩
  · cases hf : f args kwargs with
    | error e =>
        refine ⟨[(Value.none, Option.some e)], ?_, ?_, ?_, ?_⟩
        · simp [call, hf, qput, hw]
        · intro env henv
          simp at henv
          subst henv
          rfl
        · intro e' he'
          cases he'
          rfl
        · intro v hv
          cases hv
    | ok v =>
        refine ⟨[(v, Option.none)], ?_, ?_, ?_, ?_⟩
        · simp [call, hf, qput, hw]
        · intro env henv
          simp at henv
          subst henv
          simp [valuePopulated, errorPopulated]
        · intro e' he'
          cases he'
        · intro v' hv
          cases hv
          rfl
  · simp [send_script_result, qput, hw]

theorem c4_amended_never_both_populated_witness :
    (∃ written : List Envelope,
      (call (fun _ _ => Except.ok (Value.int 3)) [] [] (Option.some 0)
          ⟨0, [], 1, [(0, [])], []⟩).1.queues
        = alist.set [(0, [])] 0 ([] ++ written) ∧
      (∀ env ∈ written, (valuePopulated env && errorPopulated env) = false) ∧
      (∀ e, (Except.ok (Value.int 3) : Except PyExc Value) = Except.error e →
          written = [(Value.none, Option.some e)]) ∧
      (∀ v, (Except.ok (Value.int 3) : Except PyExc Value) = Except.ok v →
          written = [(v, Option.none)])) ∧
    (send_script_result (Option.some 0) ⟨0, [], 1, [(0, [])], []⟩).1.queues
        = alist.set [(0, [])] 0 ([] ++ [(Value.none, Option.none)]) ∧
    (valuePopulated (Value.none, Option.none)
        && errorPopulated (Value.none, Option.none)) = false :=
  c4_amended_never_both_populated (fun _ _ => Except.ok (Value.int 3)) [] [] 0
    ⟨0, [], 1, [(0, [])], []⟩ [] (by decide)

/-- C5: the claim says a string (script-form) initializer with non-empty
`initargs` fails with the distinguished "an initializer script does not
take args" `ValueError`.  The code instead raises the generic
`TypeError('scripts not supported')` on every script initializer:
`resolve_task` raises `TypeError`, which the `except ValueError` handler
in `prepare` (lines 58-61) never catches, so the distinguished branch is
unreachable — the code contradicts its own handler's evident intent. -/
theorem c5_script_initializer_with_args_generic_error :
    prepare (Option.some (TaskFn.script "import math")) [Value.int 1]
        = Except.error ⟨"TypeError", "scripts not supported"⟩ ∧
    (∀ (s : String) (args : List Value),
      prepare (Option.some (TaskFn.script s)) args
        = Except.error ⟨"TypeError", "scripts not supported"⟩) ∧
    ((⟨"TypeError", "scripts not supported"⟩ : PyExc)
      ≠ ⟨"ValueError", "an initializer script does not take args"⟩) :=
  ⟨rfl, fun s args => rfl, by decide⟩

/-- C6: passing a raw script string as the task callable makes the
encoder (`resolve_task`) raise `TypeError('scripts not supported')`
synchronously to the submitter, and the world of external primitives is
returned unchanged — no interpreter handle and no queue handle is
allocated on this path. -/
theorem c6_script_task_rejected_no_allocation :
    ∀ (s : String) (args : List Value) (kwargs : KW) (w : World),
      encodeTask (TaskFn.script s) args kwargs w
        = (w, Except.error ⟨"TypeError", "scripts not supported"⟩) :=
  fun s args kwargs w => rfl

/-- C7: `finalize` is idempotent and total: it never raises (it is a
total function; the only failures its callees can produce are the
not-found conditions it catches), it leaves both handles empty after
every call — including on a context on which `run` was never invoked —
and a second `finalize` changes nothing at all (in particular the
interpreter's reference count is decremented at most once). -/
theorem c7_finalize_idempotent_total : ∀ (c : Ctx) (w : World),
    ((finalize c w).1.interpid = Option.none ∧
     (finalize c w).1.resultsid = Option.none) ∧
    finalize (finalize c w).1 (finalize c w).2 = ((finalize c w).1, (finalize c w).2) :=
  fun c w => ⟨⟨rfl, rfl⟩, rfl⟩

/-- C8: in the envelope-retrieval loop of `run`, the channel-not-found
condition (`QueueNotFoundError`) is fatal: it is re-raised immediately,
before any further outcome is consulted; every transient outcome (any
other `QueueError`, or the `ModuleNotFoundError` standing in for it) is
retried silently — a transient prefix of the outcome sequence never
changes the loop's result — and a successful `get` breaks the loop. -/
theorem c8_fatal_vs_transient_retrieval :
    (∀ t, retrieveLoop (GetOutcome.queueNotFound :: t) = Option.some (Except.error ())) ∧
    (∀ obj t, retrieveLoop (GetOutcome.ok obj :: t) = Option.some (Except.ok obj)) ∧
    (∀ ts rest, (∀ x ∈ ts, transient x = true) →
      retrieveLoop (ts ++ rest) = retrieveLoop rest) := by
  refine ⟨fun t => rfl, fun obj t => rfl, ?_⟩
  intro ts rest h
  induction ts with
  | nil => rfl
  | cons x t ih =>
      have hx := h x (List.mem_cons_self _ _)
      have ht : ∀ y ∈ t, transient y = true := fun y hy => h y (List.mem_cons_of_mem _ hy)
      cases x with
      | ok obj => simp [transient] at hx
      | queueNotFound => simp [transient] at hx
      | queueError => simpa [retrieveLoop] using ih ht
      | moduleNotFound => simpa [retrieveLoop] using ih ht

theorem c8_fatal_vs_transient_retrieval_witness :
    retrieveLoop ([GetOutcome.queueError, GetOutcome.moduleNotFound]
        ++ [GetOutcome.ok ((Value.int 1, Option.none), Option.none)])
      = retrieveLoop [GetOutcome.ok ((Value.int 1, Option.none), Option.none)] :=
  c8_fatal_vs_transient_retrieval.2.2
    [GetOutcome.queueError, GetOutcome.moduleNotFound]
    [GetOutcome.ok ((Value.int 1, Option.none), Option.none)] (by decide)

/-- C9: the message of a constructed `ExecutionFailed` follows the stated
preference chain — the pre-formatted text when truthy, otherwise the
remote type name combined with the message, otherwise the type name
alone — and producing the human-readable string never itself raises:
`__str__` is a total function, and when composing the preferred
`errdisplay` form fails, it falls back to the base message. -/
theorem c9_execution_failed_message_chain :
    (∀ info : ExcInfo, truthyS info.formatted = true →
      efInitMsg info = Except.ok info.formatted) ∧
    (∀ (info : ExcInfo) (tn m : String), truthyS info.formatted = false →
      info.type = Option.some tn → info.msg = Option.some m → m.isEmpty = false →
      efInitMsg info = Except.ok (Option.some (tn ++ ": " ++ m))) ∧
    (∀ (info : ExcInfo) (tn : String), truthyS info.formatted = false →
      info.type = Option.some tn → truthyS info.msg = false → tn.isEmpty = false →
      efInitMsg info = Except.ok (Option.some tn)) ∧
    (∀ ef : ExecutionFailed, ef.excinfo.errdisplay = Option.none →
      efStr ef = baseStr ef.msg) := by
  refine ⟨?_, ?_, ?_, ?_⟩
  · intro info h; simp [efInitMsg, h]
  · intro info tn m hf ht hm hme
    simp only [efInitMsg]
    rw [hf, ht, hm]
    simp [truthyS, hme]
  · intro info tn hf ht hm htn
    simp only [efInitMsg]
    rw [hf, ht, hm]
    simp [htn]
  · intro ef h; simp [efStr, h]

theorem c9_execution_failed_message_chain_witness :
    efInitMsg ⟨Option.some "T", Option.some "m", Option.some "full", Option.none⟩
        = Except.ok (Option.some "full") ∧
    efInitMsg ⟨Option.some "T", Option.some "m", Option.none, Option.none⟩
        = Except.ok (Option.some ("T" ++ ": " ++ "m")) ∧
    efInitMsg ⟨Option.some "T", Option.none, Option.none, Option.none⟩
        = Except.ok (Option.some "T") ∧
    efStr ⟨Option.some "x", ⟨Option.some "T", Option.none, Option.none, Option.none⟩⟩
        = baseStr (Option.some "x") :=
  ⟨c9_execution_failed_message_chain.1
      ⟨Option.some "T", Option.some "m", Option.some "full", Option.none⟩ (by decide),
   c9_execution_failed_message_chain.2.1
      ⟨Option.some "T", Option.some "m", Option.none, Option.none⟩ "T" "m"
      (by decide) rfl rfl (by decide),
   c9_execution_failed_message_chain.2.2.1
      ⟨Option.some "T", Option.none, Option.none, Option.none⟩ "T"
      (by decide) rfl (by decide) (by decide),
   c9_execution_failed_message_chain.2.2.2
      ⟨Option.some "x", ⟨Option.some "T", Option.none, Option.none, Option.none⟩⟩ rfl⟩

/-- C10: a falsy `shared` argument (`None` or an empty mapping) is stored
as `None` by the constructor and `initialize` performs no top-level
binding injection; a non-empty mapping is stored as a snapshot of its
contents (the code copies with `dict(shared)`, so the stored value — and
hence what `initialize` injects — is the mapping's contents at
construction time, unaffected by later mutation of the caller's object),
and `initialize` injects exactly that snapshot. -/
theorem c10_shared_falsy_none_snapshot_injection :
    (∀ d : Option Blob, (mkCtx d Option.none).shared = Option.none) ∧
    (∀ d : Option Blob, (mkCtx d (Option.some [])).shared = Option.none) ∧
    (∀ (d : Option Blob) (m : SharedMap), m ≠ [] →
      (mkCtx d (Option.some m)).shared = Option.some m) ∧
    (alist.get (ctxInit (mkCtx Option.none Option.none) noFail 1
        ⟨0, [], 0, [], []⟩).2.1.mains 0 = Option.none) ∧
    (∀ m : SharedMap, m ≠ [] →
      alist.get (ctxInit (mkCtx Option.none (Option.some m)) noFail 1
          ⟨0, [], 0, [], []⟩).2.1.mains 0 = Option.some m) := by
  refine ⟨fun d => rfl, fun d => rfl, ?_, by decide, ?_⟩
  · intro d m hm
    cases m with
    | nil => exact absurd rfl hm
    | cons a t => rfl
  · intro m hm
    cases m with
    | nil => exact absurd rfl hm
    | cons a t =>
        simp [ctxInit, mkCtx, sharedTruthy, icreate, initSteps, noFail, iincref, alist.get,
              alist.set, qcreate, ctx_exec, interpExec, initShared, set_main_attrs, alist.put,
              mergeBindings, lookupStr, initTask]

theorem c10_shared_falsy_none_snapshot_injection_witness :
    (mkCtx Option.none (Option.some [("X", Value.int 42)])).shared
        = Option.some [("X", Value.int 42)] ∧
    alist.get (ctxInit (mkCtx Option.none (Option.some [("X", Value.int 42)])) noFail 1
        ⟨0, [], 0, [], []⟩).2.1.mains 0 = Option.some [("X", Value.int 42)] :=
  ⟨c10_shared_falsy_none_snapshot_injection.2.2.1 Option.none [("X", Value.int 42)]
      (by decide),
   c10_shared_falsy_none_snapshot_injection.2.2.2.2 [("X", Value.int 42)] (by decide)⟩

end InterpPool
